import Mathlib

/-!
Verification of the laser-tms steady-state thermal solver core.

The development below translates, into Lean over exact rational arithmetic,
the pure computational core of the repository:
  - `src/constants.py` : physical constants and conversion factors;
  - `src/units.py`     : SI <-> imperial conversion helpers;
  - `src/models.py`    : the dataclass data model;
  - `src/solvers.py`   : the four solvers plus the warning classifier;
  - `defaults.py`      : the canonical default case;
  - `app.py`           : the solver orchestration (heater call wiring).
Python floats are modelled as rationals, with every decimal literal of the
source written as the exact fraction it denotes (e.g. `1.19` becomes
`119 / 100`).  A solver that raises `ValueError` is modelled as returning
`Except.error` carrying the same message.  Python fixed-point number
formatting inside the warning f-strings is modelled by `fmt0` / `fmt1`
(round to the requested number of decimals and print); the fixed text
around the interpolated number is reproduced verbatim.
-/

/-! ### Constants (src/constants.py) -/

def AIR_CP : ℚ := 1005

def AIR_DENSITY : ℚ := 119 / 100

def WATER_CP : ℚ := 4186

def WATER_DENSITY : ℚ := 998

def FT_TO_M : ℚ := 3048 / 10000

def M_TO_FT : ℚ := 1 / FT_TO_M

def FT3_TO_M3 : ℚ := FT_TO_M ^ 3

def M3_TO_FT3 : ℚ := M_TO_FT ^ 3

def M3S_TO_CFM : ℚ := 211888 / 100

def CFM_TO_M3S : ℚ := 1 / M3S_TO_CFM

def KGS_TO_LPM_WATER : ℚ := 60 / WATER_DENSITY * 1000

def LPM_TO_GPM : ℚ := 264172 / 1000000

def GPM_TO_LPM : ℚ := 1 / LPM_TO_GPM

/-! ### Unit conversions (src/units.py) -/

def ft_to_m (ft : ℚ) : ℚ := ft * FT_TO_M

def m_to_ft (m : ℚ) : ℚ := m * M_TO_FT

def ft3_to_m3 (ft3 : ℚ) : ℚ := ft3 * FT3_TO_M3

def m3_to_ft3 (m3 : ℚ) : ℚ := m3 * M3_TO_FT3

def cfm_to_m3s (cfm : ℚ) : ℚ := cfm * CFM_TO_M3S

def m3s_to_cfm (m3s : ℚ) : ℚ := m3s * M3S_TO_CFM

def kgs_to_lpm (kgs : ℚ) : ℚ := kgs * KGS_TO_LPM_WATER

def lpm_to_gpm (lpm : ℚ) : ℚ := lpm * LPM_TO_GPM

def gpm_to_lpm (gpm : ℚ) : ℚ := gpm * GPM_TO_LPM

/-! ### Data model (src/models.py) -/

inductive CoolingType where
  | AIR_COIL
  | LIQUID
  | HYBRID

structure Enclosure where
  length_m : ℚ
  width_m : ℚ
  height_m : ℚ
  air_density : ℚ
  air_cp : ℚ
  internal_thermal_mass : ℚ

def Enclosure.volume_m3 (e : Enclosure) : ℚ :=
  e.length_m * e.width_m * e.height_m

def Enclosure.thermal_capacitance (e : Enclosure) : ℚ :=
  e.air_density * e.volume_m3 * e.air_cp + e.internal_thermal_mass

structure HeatLoads where
  baseline_load_w : ℚ
  additional_loads_w : ℚ

def HeatLoads.total_load_w (h : HeatLoads) : ℚ :=
  h.baseline_load_w + h.additional_loads_w

structure CoolingPlant where
  cooling_type : CoolingType
  coil_approach_temp_c : ℚ
  coil_max_capacity_w : ℚ
  chilled_water_temp_c : ℚ
  delta_t_air_c : ℚ
  delta_t_water_c : ℚ

structure AmbientConditions where
  temperature_c : ℚ
  variation_amplitude_c : ℚ
  variation_period_hr : ℚ
  ua_value : ℚ

/-! ### Solver result container (src/solvers.py, SolverResult) -/

structure SolverResult where
  airflow_m3s : ℚ
  airflow_kgs : ℚ
  coolant_kgs : ℚ
  coil_leaving_temp_c : ℚ
  heater_required_w : ℚ
  coil_utilization_pct : ℚ
  warnings : List String

/-- Fresh result with every field at its dataclass default. -/
def SolverResult.empty : SolverResult :=
  ⟨0, 0, 0, 0, 0, 0, []⟩

/-! ### Solvers (src/solvers.py) -/

/-- Embedding of `solve_airflow`.  The Python defaults `air_cp=AIR_CP`,
`air_density=AIR_DENSITY` are passed explicitly by every statement below. -/
def solve_airflow (q_total_w delta_t_air_c air_cp air_density : ℚ) :
    Except String SolverResult :=
  if delta_t_air_c = 0 then
    Except.error "ΔT_air cannot be zero"
  else
    let m_dot := q_total_w / (air_cp * delta_t_air_c)
    let v_dot := m_dot / air_density
    Except.ok { SolverResult.empty with airflow_m3s := v_dot, airflow_kgs := m_dot }

/-- Embedding of `solve_coolant_flow` (the Python default `water_cp=WATER_CP`
is passed explicitly by every statement below). -/
def solve_coolant_flow (q_total_w delta_t_water_c water_cp : ℚ) :
    Except String SolverResult :=
  if delta_t_water_c = 0 then
    Except.error "ΔT_water cannot be zero"
  else
    let m_dot := q_total_w / (water_cp * delta_t_water_c)
    Except.ok { SolverResult.empty with coolant_kgs := m_dot }

/-- Embedding of `solve_coil_leaving_temp` (the Python default `air_cp=AIR_CP`
is passed explicitly by every statement below). -/
def solve_coil_leaving_temp (q_total_w airflow_kgs return_air_temp_c air_cp : ℚ) :
    Except String SolverResult :=
  if airflow_kgs = 0 then
    Except.error "Airflow mass rate cannot be zero"
  else
    let delta_t := q_total_w / (airflow_kgs * air_cp)
    let t_out := return_air_temp_c - delta_t
    Except.ok { SolverResult.empty with coil_leaving_temp_c := t_out }

/-- Embedding of `solve_heater_requirement` (total: no failure branch). -/
def solve_heater_requirement (q_load_w ua_value ambient_temp_c setpoint_c : ℚ) :
    SolverResult :=
  let heat_loss_w := ua_value * (setpoint_c - ambient_temp_c)
  let net_deficit := heat_loss_w - q_load_w
  let heater_w := max 0 net_deficit
  { SolverResult.empty with heater_required_w := heater_w }

/-! ### Warning messages (src/solvers.py, compute_warnings) -/

/-- Model of the Python fixed-point format `:.0f` (round to an integer and
print it; tie-breaking and sign display of the rounding are immaterial to
the properties checked here). -/
def fmt0 (x : ℚ) : String := toString (round x)

/-- Model of the Python fixed-point format `:.1f` (one decimal digit). -/
def fmt1 (x : ℚ) : String :=
  let n : ℤ := round (10 * x)
  toString (n / 10) ++ "." ++ toString (n.natAbs % 10)

def saturatedMsg (coil_utilization_pct : ℚ) : String :=
  "COOLING SATURATED: Coil utilization at " ++ fmt0 coil_utilization_pct ++
    "%. Increase coil capacity or reduce heat load."

def highUtilMsg (coil_utilization_pct : ℚ) : String :=
  "High coil utilization: " ++ fmt0 coil_utilization_pct ++
    "%. Limited cooling margin remaining."

def heaterMsg (heater_required_w : ℚ) : String :=
  "Heater required: " ++ fmt1 heater_required_w ++
    " W to maintain setpoint under current ambient conditions."

/-- Embedding of `compute_warnings`: the list is built exactly in the order
the Python function appends. -/
def compute_warnings (coil_utilization_pct heater_required_w : ℚ) : List String :=
  let warnings : List String := []
  let warnings :=
    if coil_utilization_pct > 100 then
      warnings ++ [saturatedMsg coil_utilization_pct]
    else if coil_utilization_pct > 90 then
      warnings ++ [highUtilMsg coil_utilization_pct]
    else
      warnings
  let warnings :=
    if heater_required_w > 0 then
      warnings ++ [heaterMsg heater_required_w]
    else
      warnings
  warnings

/-! ### Substring check used to state the "indicator" properties -/

/-- Bool-valued check that the character list `pat` occurs contiguously
inside the second list. -/
def listContainsSub (pat : List Char) : List Char → Bool
  | [] => pat.isPrefixOf ([] : List Char)
  | c :: tail => pat.isPrefixOf (c :: tail) || listContainsSub pat tail

/-- String `s` has `pat` as a (contiguous) substring. -/
def containsStr (s pat : String) : Bool := listContainsSub pat.toList s.toList

/-! ### Defaults (defaults.py) -/

def default_enclosure : Enclosure :=
  { length_m := ft_to_m 4
    width_m := ft_to_m 10
    height_m := ft_to_m (5 / 2)
    air_density := AIR_DENSITY
    air_cp := AIR_CP
    internal_thermal_mass := 50000 }

def default_heat_loads : HeatLoads :=
  { baseline_load_w := 100, additional_loads_w := 0 }

def default_cooling_plant : CoolingPlant :=
  { cooling_type := CoolingType.AIR_COIL
    coil_approach_temp_c := 2
    coil_max_capacity_w := 500
    chilled_water_temp_c := 15
    delta_t_air_c := 5
    delta_t_water_c := 2 }

def default_ambient : AmbientConditions :=
  { temperature_c := 47 / 2
    variation_amplitude_c := 2
    variation_period_hr := 24
    ua_value := 2 }

/-! ### Application orchestration (app.py) -/

/-- Heater power computed by the application: `app.py` invokes
`solve_heater_requirement` with `setpoint_c=ambient.temperature_c`, so the
ambient temperature and the setpoint are always the same argument. -/
def app_heater_required_w (q_total ua_value ambient_temp_c : ℚ) : ℚ :=
  (solve_heater_requirement q_total ua_value ambient_temp_c
    ambient_temp_c).heater_required_w

/-- Warning list computed by the application for a given utilization:
`app.py` feeds `heater_result.heater_required_w` into `compute_warnings`. -/
def app_warnings (coil_utilization_pct q_total ua_value ambient_temp_c : ℚ) :
    List String :=
  compute_warnings coil_utilization_pct
    (app_heater_required_w q_total ua_value ambient_temp_c)

/-- The solver sequence `app.py` runs on the canonical default case
(airflow, then coolant, then coil temperature, then heater; an error from
any solver propagates, as an uncaught Python exception would), returning
(airflow CFM, coolant L/min, heater W, coil leaving °C). -/
def defaultPipeline : Except String (ℚ × ℚ × ℚ × ℚ) :=
  let q := default_heat_loads.total_load_w
  (solve_airflow q default_cooling_plant.delta_t_air_c AIR_CP AIR_DENSITY).bind
    fun air =>
  (solve_coolant_flow q default_cooling_plant.delta_t_water_c WATER_CP).bind
    fun cool =>
  (solve_coil_leaving_temp q air.airflow_kgs
      default_ambient.temperature_c AIR_CP).bind
    fun coil =>
  let heat := solve_heater_requirement q default_ambient.ua_value
      default_ambient.temperature_c default_ambient.temperature_c
  Except.ok (m3s_to_cfm air.airflow_m3s, kgs_to_lpm cool.coolant_kgs,
      heat.heater_required_w, coil.coil_leaving_temp_c)

/-! ### Helper lemmas -/

/-- The heater solver output as a closed-form clamped expression. -/
lemma heater_eq (q ua t_amb t_set : ℚ) :
    (solve_heater_requirement q ua t_amb t_set).heater_required_w =
      max 0 (ua * (t_set - t_amb) - q) := by
  simp [solve_heater_requirement]

/-- The warning list splits into a utilization part followed by a heater
part, mirroring the two sequential appends of the Python function. -/
lemma compute_warnings_split (u h : ℚ) :
    compute_warnings u h =
      (if 100 < u then [saturatedMsg u] else if 90 < u then [highUtilMsg u] else []) ++
      (if 0 < h then [heaterMsg h] else []) := by
  unfold compute_warnings
  norm_num
  rcases lt_or_le 100 u with h1 | h1 <;> rcases lt_or_le 0 h with h2 | h2 <;>
    simp [h1, h2, not_lt.mpr]

/-- A heater message is never a saturated message (they differ inside their
fixed leading text). -/
lemma heater_ne_saturated (x y : ℚ) : heaterMsg x ≠ saturatedMsg y := by
  intro h
  unfold heaterMsg saturatedMsg at h
  have h2 := congrArg String.data h
  have e1 : "Heater required: ".data = 'H' :: 'e' :: "ater required: ".data := rfl
  have e2 : "COOLING SATURATED: Coil utilization at ".data =
      'C' :: 'O' :: "OLING SATURATED: Coil utilization at ".data := rfl
  rw [String.data_append, String.data_append, String.data_append, String.data_append,
    e1, e2] at h2
  simp [List.cons_append] at h2

/-- A heater message is never a high-utilization message (they differ inside
their fixed leading text). -/
lemma heater_ne_high (x y : ℚ) : heaterMsg x ≠ highUtilMsg y := by
  intro h
  unfold heaterMsg highUtilMsg at h
  have h2 := congrArg String.data h
  have e1 : "Heater required: ".data = 'H' :: 'e' :: "ater required: ".data := rfl
  have e2 : "High coil utilization: ".data = 'H' :: 'i' :: "gh coil utilization: ".data := rfl
  rw [String.data_append, String.data_append, String.data_append, String.data_append,
    e1, e2] at h2
  simp [List.cons_append] at h2

/-! ### Claim theorems -/

/-- C1: with a nonzero denominator each solver succeeds and returns exactly
its documented algebraic formula: `solve_airflow` returns
`airflow_kgs = Q / (c_p_air * dT_air)` and `airflow_m3s = airflow_kgs / rho_air`;
`solve_coolant_flow` returns `coolant_kgs = Q / (c_p_water * dT_water)`;
`solve_coil_leaving_temp` returns
`coil_leaving_temp_c = T_return - Q / (m_dot * c_p_air)`. -/
theorem solvers_match_documented_formulas (q dT_air dT_water m T_ret : ℚ)
    (h1 : dT_air ≠ 0) (h2 : dT_water ≠ 0) (h3 : m ≠ 0) :
    (solve_airflow q dT_air AIR_CP AIR_DENSITY).map SolverResult.airflow_kgs
      = Except.ok (q / (AIR_CP * dT_air)) ∧
    (solve_airflow q dT_air AIR_CP AIR_DENSITY).map SolverResult.airflow_m3s
      = Except.ok (q / (AIR_CP * dT_air) / AIR_DENSITY) ∧
    (solve_coolant_flow q dT_water WATER_CP).map SolverResult.coolant_kgs
      = Except.ok (q / (WATER_CP * dT_water)) ∧
    (solve_coil_leaving_temp q m T_ret AIR_CP).map SolverResult.coil_leaving_temp_c
      = Except.ok (T_ret - q / (m * AIR_CP)) := by
  refine ⟨?_, ?_, ?_, ?_⟩ <;>
    simp [solve_airflow, solve_coolant_flow, solve_coil_leaving_temp, h1, h2, h3,
      Except.map]

/-- Witness for C1 at Q = 100 W, dT_air = 5, dT_water = 2, m_dot = 3,
T_return = 20. -/
theorem solvers_match_documented_formulas_witness :
    (solve_airflow 100 5 AIR_CP AIR_DENSITY).map SolverResult.airflow_kgs
      = Except.ok (100 / (AIR_CP * 5)) ∧
    (solve_airflow 100 5 AIR_CP AIR_DENSITY).map SolverResult.airflow_m3s
      = Except.ok (100 / (AIR_CP * 5) / AIR_DENSITY) ∧
    (solve_coolant_flow 100 2 WATER_CP).map SolverResult.coolant_kgs
      = Except.ok (100 / (WATER_CP * 2)) ∧
    (solve_coil_leaving_temp 100 3 20 AIR_CP).map SolverResult.coil_leaving_temp_c
      = Except.ok (20 - 100 / (3 * AIR_CP)) :=
  solvers_match_documented_formulas 100 5 2 3 20 (by norm_num) (by norm_num)
    (by norm_num)

/-- C2: each of the three fallible solvers raises InvalidInput exactly when
its own denominator input is zero, and rejects nothing else: `solve_airflow`
errors iff `delta_t_air_c = 0`, `solve_coolant_flow` errors iff
`delta_t_water_c = 0`, `solve_coil_leaving_temp` errors iff
`airflow_kgs = 0`, for every heat load Q including Q = 0. -/
theorem solver_error_iff_zero_denominator (q dT_air dT_water m T_ret : ℚ) :
    ((∃ e, solve_airflow q dT_air AIR_CP AIR_DENSITY = Except.error e) ↔
      dT_air = 0) ∧
    ((∃ e, solve_coolant_flow q dT_water WATER_CP = Except.error e) ↔
      dT_water = 0) ∧
    ((∃ e, solve_coil_leaving_temp q m T_ret AIR_CP = Except.error e) ↔
      m = 0) := by
  unfold solve_airflow solve_coolant_flow solve_coil_leaving_temp
  refine ⟨⟨?_, ?_⟩, ⟨?_, ?_⟩, ⟨?_, ?_⟩⟩ <;> intro h
  · by_contra hne; rw [if_neg hne] at h; exact absurd h.choose_spec (by simp)
  · simp [h]
  · by_contra hne; rw [if_neg hne] at h; exact absurd h.choose_spec (by simp)
  · simp [h]
  · by_contra hne; rw [if_neg hne] at h; exact absurd h.choose_spec (by simp)
  · simp [h]

/-- C3: `solve_heater_requirement` is total and returns
`max 0 (UA * (T_set - T_amb) - Q_load)`; in particular the result is never
negative. -/
theorem heater_requirement_formula_and_nonneg (q ua t_amb t_set : ℚ) :
    (solve_heater_requirement q ua t_amb t_set).heater_required_w =
      max 0 (ua * (t_set - t_amb) - q) ∧
    0 ≤ (solve_heater_requirement q ua t_amb t_set).heater_required_w := by
  refine ⟨heater_eq q ua t_amb t_set, ?_⟩
  rw [heater_eq]
  exact le_max_left 0 _

/-- C4: `compute_warnings` emits a saturated message exactly when
utilization exceeds 100, a high-utilization message exactly when it lies in
(90, 100], and a heater message exactly when heater power is positive, with
the utilization message always preceding the heater message; on the three
quoted inputs it produces exactly the quoted outcomes, with the expected
indicator substrings. -/
theorem compute_warnings_classification (u h : ℚ) :
    (compute_warnings u h =
      (if 100 < u then [saturatedMsg u]
       else if 90 < u ∧ u ≤ 100 then [highUtilMsg u] else []) ++
      (if 0 < h then [heaterMsg h] else [])) ∧
    compute_warnings 105 0 = [saturatedMsg 105] ∧
    containsStr (saturatedMsg 105) "SATURATED" = true ∧
    compute_warnings 50 15 = [heaterMsg 15] ∧
    containsStr (heaterMsg 15) "Heater" = true ∧
    compute_warnings 50 0 = [] := by
  refine ⟨?_, ?_, by decide, ?_, by decide, ?_⟩
  · rw [compute_warnings_split]
    rcases lt_trichotomy u 100 with h1 | h1 | h1 <;>
      simp [h1, le_of_lt, not_lt.mpr, le_of_eq]
  · rw [compute_warnings_split]; norm_num
  · rw [compute_warnings_split]; norm_num
  · rw [compute_warnings_split]; norm_num

/-- C5: on the canonical default case (100 W load, dT_air = 5, dT_water = 2,
ambient = setpoint = 23.5 °C, UA = 2) the composed pipeline returns an
airflow between 35 and 42 CFM, a coolant flow within 5 percent of
0.72 L/min, a heater requirement of exactly 0 W, and a coil leaving
temperature of exactly 18.5 °C. -/
theorem default_case_end_to_end :
    ∃ cfm lpm : ℚ,
      defaultPipeline = Except.ok (cfm, lpm, 0, 37 / 2) ∧
      35 ≤ cfm ∧ cfm ≤ 42 ∧
      |lpm - 72 / 100| ≤ 5 / 100 * (72 / 100) := by
  refine ⟨49856 / 1407, 750000 / 1044407, ?_, by norm_num, by norm_num, ?_⟩
  · have h1 : solve_airflow 100 5 AIR_CP AIR_DENSITY =
        Except.ok ⟨400 / 23919, 4 / 201, 0, 0, 0, 0, []⟩ := by
      simp [solve_airflow, AIR_CP, AIR_DENSITY, SolverResult.empty]
      norm_num
    have h2 : solve_coolant_flow 100 2 WATER_CP =
        Except.ok ⟨0, 0, 25 / 2093, 0, 0, 0, []⟩ := by
      simp [solve_coolant_flow, WATER_CP, SolverResult.empty]
      norm_num
    have h3 : solve_coil_leaving_temp 100 (4 / 201) (47 / 2) AIR_CP =
        Except.ok ⟨0, 0, 0, 37 / 2, 0, 0, []⟩ := by
      simp [solve_coil_leaving_temp, AIR_CP, SolverResult.empty]
      norm_num
    have h4 : solve_heater_requirement 100 2 (47 / 2) (47 / 2) =
        ({ SolverResult.empty with heater_required_w := 0 } : SolverResult) := by
      simp [solve_heater_requirement]
    unfold defaultPipeline
    simp only [default_heat_loads, default_cooling_plant, default_ambient,
      HeatLoads.total_load_w]
    norm_num
    rw [h1]
    simp only [Except.bind]
    rw [h2]
    simp only [Except.bind]
    rw [h3]
    simp only [Except.bind, h4]
    simp [m3s_to_cfm, kgs_to_lpm, M3S_TO_CFM, KGS_TO_LPM_WATER, WATER_DENSITY,
      SolverResult.empty]
    norm_num
  · rw [abs_le]; constructor <;> norm_num

/-- C6 counterexample: as stated the claim fails for a negative UA.  With
Q_load = 0, UA = -1, ambient 1 °C at or above setpoint 0 °C, the heater
output is 1 W, not 0. -/
theorem heater_negative_ua_counterexample :
    (0 : ℚ) ≤ 1 ∧ (0 : ℚ) ≤ 0 ∧
    (solve_heater_requirement 0 (-1) 1 0).heater_required_w ≠ 0 := by
  refine ⟨by norm_num, le_refl 0, ?_⟩
  rw [heater_eq]
  norm_num

/-- C6 (amended): `solve_heater_requirement` returns exactly 0 whenever
the ambient temperature is at or above the setpoint, for any nonnegative
UA and any nonnegative Q_load. -/
theorem heater_zero_when_ambient_ge_setpoint (q ua t_amb t_set : ℚ)
    (hua : 0 ≤ ua) (hq : 0 ≤ q) (h : t_set ≤ t_amb) :
    (solve_heater_requirement q ua t_amb t_set).heater_required_w = 0 := by
  rw [heater_eq]
  have h1 : ua * (t_set - t_amb) ≤ 0 :=
    mul_nonpos_of_nonneg_of_nonpos hua (by linarith)
  exact max_eq_left (by linarith)

/-- Witness for the amended C6 at Q = 5, UA = 2, ambient 30 °C, setpoint
20 °C. -/
theorem heater_zero_when_ambient_ge_setpoint_witness :
    (solve_heater_requirement 5 2 30 20).heater_required_w = 0 :=
  heater_zero_when_ambient_ge_setpoint 5 2 30 20 (by norm_num) (by norm_num)
    (by norm_num)

/-- C7: the length and airflow unit conversions round-trip exactly over the
exact-arithmetic embedding, since each factor is defined as the reciprocal
of the other. -/
theorem unit_conversions_round_trip (x : ℚ) :
    m_to_ft (ft_to_m x) = x ∧ cfm_to_m3s (m3s_to_cfm x) = x := by
  constructor
  · show x * FT_TO_M * M_TO_FT = x
    rw [mul_assoc, show FT_TO_M * M_TO_FT = 1 by norm_num [FT_TO_M, M_TO_FT],
      mul_one]
  · show x * M3S_TO_CFM * CFM_TO_M3S = x
    rw [mul_assoc,
      show M3S_TO_CFM * CFM_TO_M3S = 1 by norm_num [M3S_TO_CFM, CFM_TO_M3S],
      mul_one]

/-- C8 counterexample: for the fixed heat load Q = 0, decreasing
delta_t_air_c from 1 to 1/2 leaves `airflow_kgs` unchanged at 0, so the
strict increase claimed for every fixed Q fails at Q = 0. -/
theorem airflow_zero_load_counterexample :
    ((1 : ℚ) / 2 < 1 ∧ 0 < (1 : ℚ) / 2) ∧
    (solve_airflow 0 1 AIR_CP AIR_DENSITY).map SolverResult.airflow_kgs
      = Except.ok 0 ∧
    (solve_airflow 0 (1 / 2) AIR_CP AIR_DENSITY).map SolverResult.airflow_kgs
      = Except.ok 0 ∧
    ¬ (0 : ℚ) < 0 := by
  refine ⟨by norm_num, ?_, ?_, by norm_num⟩ <;>
    simp [solve_airflow, Except.map]

/-- C8 (amended): for fixed Q > 0, decreasing delta_t_air_c within positive
values strictly increases `airflow_kgs`; and for any fixed nonzero
delta_t_air_c, doubling Q exactly doubles `airflow_kgs`. -/
theorem airflow_monotone_and_linear (q dT dT2 q3 dT3 a b c d : ℚ)
    (hq : 0 < q) (h1 : 0 < dT2) (h2 : dT2 < dT) (h3 : dT3 ≠ 0)
    (ha : (solve_airflow q dT AIR_CP AIR_DENSITY).map SolverResult.airflow_kgs
      = Except.ok a)
    (hb : (solve_airflow q dT2 AIR_CP AIR_DENSITY).map SolverResult.airflow_kgs
      = Except.ok b)
    (hc : (solve_airflow q3 dT3 AIR_CP AIR_DENSITY).map SolverResult.airflow_kgs
      = Except.ok c)
    (hd : (solve_airflow (2 * q3) dT3 AIR_CP AIR_DENSITY).map
        SolverResult.airflow_kgs = Except.ok d) :
    a < b ∧ d = 2 * c := by
  have hdT : (0 : ℚ) < dT := lt_trans h1 h2
  simp [solve_airflow, ne_of_gt hdT, ne_of_gt h1, h3, Except.map] at ha hb hc hd
  subst ha hb hc hd
  constructor
  · apply div_lt_div_of_pos_left hq
    · unfold AIR_CP; positivity
    · unfold AIR_CP; nlinarith
  · ring

/-- Witness for the amended C8: Q = 100 with dT falling from 5 to 2, and
Q = 7 doubled to 14 at dT = 3. -/
theorem airflow_monotone_and_linear_witness :
    100 / (AIR_CP * 5) < (100 : ℚ) / (AIR_CP * 2) ∧
    (14 : ℚ) / (AIR_CP * 3) = 2 * (7 / (AIR_CP * 3)) :=
  airflow_monotone_and_linear 100 5 2 7 3 (100 / (AIR_CP * 5))
    (100 / (AIR_CP * 2)) (7 / (AIR_CP * 3)) (14 / (AIR_CP * 3))
    (by norm_num) (by norm_num) (by norm_num) (by norm_num)
    (by norm_num [solve_airflow, Except.map])
    (by norm_num [solve_airflow, Except.map])
    (by norm_num [solve_airflow, Except.map])
    (by norm_num [solve_airflow, Except.map])

/-- C9: the application always calls `solve_heater_requirement` with the
setpoint equal to the ambient temperature, so the heater output equals
`max 0 (-Q_total)`; for every nonnegative total load it is exactly 0 and
the application's warning list never contains a heater message (it reduces
to the utilization part alone). -/
theorem app_heater_always_zero (q ua t util : ℚ) (hq : 0 ≤ q) :
    app_heater_required_w q ua t = max 0 (-q) ∧
    app_heater_required_w q ua t = 0 ∧
    app_warnings util q ua t =
      (if 100 < util then [saturatedMsg util]
       else if 90 < util then [highUtilMsg util] else []) := by
  have e1 : app_heater_required_w q ua t = 0 := by
    unfold app_heater_required_w
    rw [heater_eq]
    rw [max_eq_left (by linarith)]
  refine ⟨?_, e1, ?_⟩
  · rw [e1, max_eq_left (by linarith)]
  · unfold app_warnings
    rw [e1, compute_warnings_split]
    norm_num

/-- Witness for C9 at Q = 100, UA = 2, ambient 23.5 °C, utilization 20
percent. -/
theorem app_heater_always_zero_witness :
    app_heater_required_w 100 2 (47 / 2) = max 0 (-100) ∧
    app_heater_required_w 100 2 (47 / 2) = 0 ∧
    app_warnings 20 100 2 (47 / 2) =
      (if (100 : ℚ) < 20 then [saturatedMsg 20]
       else if (90 : ℚ) < 20 then [highUtilMsg 20] else []) :=
  app_heater_always_zero 100 2 (47 / 2) 20 (by norm_num)

/-- C10: the two utilization branches are mutually exclusive, so
`compute_warnings` emits at most one utilization-related message and its
output has length at most 2. -/
theorem warnings_at_most_two (u h : ℚ) :
    (compute_warnings u h).length ≤ 2 ∧
    ((compute_warnings u h).filter
      (fun m => m = saturatedMsg u ∨ m = highUtilMsg u)).length ≤ 1 := by
  rw [compute_warnings_split]
  have hs := heater_ne_saturated h u
  have hh := heater_ne_high h u
  rcases lt_or_le 100 u with h1 | h1 <;> rcases lt_or_le 90 u with h2 | h2 <;>
    rcases lt_or_le 0 h with h3 | h3 <;>
    simp [h1, h2, h3, not_lt.mpr, List.filter, hs, hh]
